import Mathlib

/-!
Verification of the service token / factory normalization layer of
`packages/backend-plugin-api/src/services/system/types.ts`.

The TypeScript module defines:
  * `createServiceRef` — constructs an opaque service token carrying an
    `id`, a `scope` (`'root' | 'plugin'`, default `'plugin'`), a phantom
    contract-type getter `T` that throws when read, a `toString` rendering,
    the discriminant tag `$$type: '@backstage/ServiceRef'`, and the hidden
    `__defaultFactory` payload.
  * `createServiceFactory` — accepts a declaration (a fixed configuration
    object or a function from caller options to one) and returns a builder
    function tagged `$$type: '@backstage/BackendFeatureFactory'`; invoking
    the builder evaluates the declaration and normalizes it into an
    `InternalServiceFactory` descriptor, branching on `service.scope`.

The embedding below is shallow: JavaScript objects become Lean structures,
the `async` wrappers become plain functions (a `Promise` resolving to `v` is
modelled as `v`; none of the claims concern rejection or scheduling), the
optional `createRootContext` key becomes an `Option` (key present with a
function value versus key absent, matching the `'createRootContext' in c`
check), and the JavaScript convention that a missing argument is `undefined`
is modelled by giving the context parameter type `Option V` with `none`
standing for `undefined`.  `DF` is the payload type of the
`__defaultFactory` callback (its TypeScript type mentions `ServiceFactory`
recursively in a negative position, so it is kept as an opaque parameter;
no claim inspects the payload, only that it is carried through).  `V` is
the type of opaque runtime values (resolved dependency maps, contexts,
service instances).
-/

/-- `'root' | 'plugin'` — the scope tag of a service token. -/
inductive Scope where
  | root
  | plugin
deriving DecidableEq, Repr

/-- `'always' | 'lazy'` — the initialization strategy of a descriptor. -/
inductive InitStrategy where
  | always
  | lazyInit
deriving DecidableEq, Repr

/-- The token object returned by `createServiceRef` (source lines 107–127).
`readT` models evaluating the throwing getter `T` (`Except.error` is the
thrown message); `toStr` models the result of `toString()`; `ssType` models
the discriminant field `$$type`; `defaultFactoryField` models the hidden
`__defaultFactory` property. -/
structure ServiceRef (DF : Type) where
  id : String
  scope : Scope
  readT : Except String Unit
  toStr : String
  ssType : String
  defaultFactoryField : Option DF

/-- The argument of `createServiceRef` (source `ServiceRefOptions`,
lines 81–87): `scope` and `defaultFactory` are optional keys. -/
structure ServiceRefOptions (DF : Type) where
  id : String
  scope : Option Scope
  defaultFactory : Option DF

/-- `createServiceRef` (source lines 107–127): destructures
`{ id, scope = 'plugin', defaultFactory }` and returns the token object.
The `T` getter throws `` `tried to read ServiceRef.T of ${this}` ``, where
`${this}` stringifies via the object's own `toString`, producing
`serviceRef{<id>}`. -/
def createServiceRef {DF : Type} (options : ServiceRefOptions DF) : ServiceRef DF :=
  { id := options.id
    scope := options.scope.getD Scope.plugin
    readT := Except.error
      ("tried to read ServiceRef.T of serviceRef\x7b" ++ options.id ++ "\x7d")
    toStr := "serviceRef\x7b" ++ options.id ++ "\x7d"
    ssType := "@backstage/ServiceRef"
    defaultFactoryField := options.defaultFactory }

/-- A declared dependency map: dependency name → service token
(`{ [name in string]: ServiceRef<unknown> }`). -/
abbrev DepsMap (DF : Type) : Type := List (String × ServiceRef DF)

/-- The configuration object obtained by evaluating a declaration — the
runtime union of `RootServiceFactoryOptions` (lines 138–157) and
`PluginServiceFactoryOptions` (lines 160–186).  `createRootContext` is
`some f` exactly when the key is present on the object (the source tests
`'createRootContext' in c`); a root-style configuration has no such key.
`factory` takes the resolved dependency map and the context argument; a
root-style declaration's factory is declared with one parameter, which in
JavaScript means it ignores the context slot (and when the source calls it
as `c.factory(deps)` the missing argument is `undefined`, i.e. `none`). -/
structure FactoryConfig (DF V : Type) where
  initialization : Option InitStrategy
  service : ServiceRef DF
  deps : DepsMap DF
  createRootContext : Option (V → V)
  factory : V → Option V → V

/-- The normalized descriptor (`InternalServiceFactory`, source lines
58–71): `$$type: '@backstage/BackendFeature'`, `version: 'v1'`, the token,
the optional initialization flag, the dependency token map, the optional
root-context constructor, and the instance constructor `(deps, context)`. -/
structure InternalServiceFactory (DF V : Type) where
  ssType : String
  version : String
  service : ServiceRef DF
  initialization : Option InitStrategy
  deps : DepsMap DF
  createRootContext : Option (V → V)
  factory : V → Option V → V

/-- The argument of `createServiceFactory` (implementation signature,
source lines 257–265): either a fixed configuration object or a function
from caller options to one.  `typeof options === 'function'` distinguishes
the two at runtime. -/
inductive ServiceFactoryDecl (Opts DF V : Type) where
  | fixed (c : FactoryConfig DF V)
  | fn (f : Opts → FactoryConfig DF V)

/-- `const configCallback = typeof options === 'function' ? options : () => options`
(source lines 267–268): a callable declaration is used as-is, a fixed one is
wrapped in a closure so both shapes funnel through one code path. -/
def configCallback {Opts DF V : Type} (options : ServiceFactoryDecl Opts DF V) :
    Opts → FactoryConfig DF V :=
  match options with
  | ServiceFactoryDecl.fn f => f
  | ServiceFactoryDecl.fixed c => fun _ => c

/-- The body of the inner `factory` closure (source lines 272–303): branch
on `anyConf.service.scope`.
Root branch: descriptor with no `createRootContext` key whose instance
constructor is `async (deps) => c.factory(deps)` — a one-parameter wrapper
that ignores the context the engine passes and calls the declared factory
with the dependency map only (its own context parameter is then the missing
argument `undefined`, i.e. `none`).
Plugin branch: the `createRootContext` key is spread onto the descriptor
only when `'createRootContext' in c`, wrapping the declared constructor as
`async (deps) => c?.createRootContext?.(deps)`; the instance constructor is
`async (deps, ctx) => c.factory(deps, ctx)`. -/
def mkDescriptor {DF V : Type} (anyConf : FactoryConfig DF V) :
    InternalServiceFactory DF V :=
  if anyConf.service.scope = Scope.root then
    { ssType := "@backstage/BackendFeature"
      version := "v1"
      service := anyConf.service
      initialization := anyConf.initialization
      deps := anyConf.deps
      createRootContext := none
      factory := fun deps _ => anyConf.factory deps none }
  else
    { ssType := "@backstage/BackendFeature"
      version := "v1"
      service := anyConf.service
      initialization := anyConf.initialization
      deps := anyConf.deps
      createRootContext := anyConf.createRootContext
      factory := fun deps ctx => anyConf.factory deps ctx }

/-- The builder function returned by `createServiceFactory`: a function
(`factory`) carrying the property `$$type = '@backstage/BackendFeatureFactory'`
(source lines 306–308). -/
structure FactoryBuilder (Opts DF V : Type) where
  factory : Opts → InternalServiceFactory DF V
  ssType : String

/-- `createServiceFactory` (source lines 250–309): derive `configCallback`,
build the inner `factory` closure that evaluates the declaration and
normalizes the result, tag it, and return it. -/
def createServiceFactory {Opts DF V : Type}
    (options : ServiceFactoryDecl Opts DF V) : FactoryBuilder Opts DF V :=
  { factory := fun o => mkDescriptor (configCallback options o)
    ssType := "@backstage/BackendFeatureFactory" }

/-- Instrumented evaluation of a declaration (for the deferred-evaluation
property): `n` counts how many times the caller-supplied declaration
function has been evaluated.  Evaluating a `fn` declaration applies the
user's function (one evaluation); the closure synthesized for a `fixed`
declaration runs no user code. -/
def evalDeclCounted {Opts DF V : Type} (d : ServiceFactoryDecl Opts DF V)
    (o : Opts) (n : Nat) : FactoryConfig DF V × Nat :=
  match d with
  | ServiceFactoryDecl.fn f => (f o, n + 1)
  | ServiceFactoryDecl.fixed c => (c, n)

/-- The builder in the instrumented semantics: invoking it threads the
evaluation counter. -/
structure CountedBuilder (Opts DF V : Type) where
  run : Opts → Nat → InternalServiceFactory DF V × Nat
  ssType : String

/-- `createServiceFactory` in the instrumented semantics: constructing the
builder only allocates the closure — it evaluates no declaration function
(the counter is returned unchanged); each invocation of the builder
evaluates the declaration once via `evalDeclCounted` and normalizes the
result. -/
def createServiceFactoryCounted {Opts DF V : Type}
    (d : ServiceFactoryDecl Opts DF V) (n : Nat) :
    CountedBuilder Opts DF V × Nat :=
  ({ run := fun o m =>
       let p := evalDeclCounted d o m
       (mkDescriptor p.1, p.2)
     ssType := "@backstage/BackendFeatureFactory" }, n)

/-- Modelled from the spec: the resolution engine that consumes descriptors
is not part of the excerpt under `src/`.  Per the spec ("Each descriptor
carries `always` or `lazy` (default `always` for root, `lazy` for plugin)")
and the source's doc comments on `initialization` ("Service factories for
root scoped services use `always` as the default, while plugin scoped
services use `lazy`"), the engine reads an absent `initialization` flag as
`always` for a root-scoped descriptor and `lazy` for a plugin-scoped one. -/
def effectiveInitialization {DF V : Type}
    (d : InternalServiceFactory DF V) : InitStrategy :=
  match d.initialization with
  | some s => s
  | none =>
    match d.service.scope with
    | Scope.root => InitStrategy.always
    | Scope.plugin => InitStrategy.lazyInit

/-- The constraint of the two root-scoped overloads of
`createServiceFactory` (source lines 194–217): the configuration's
`service` must be a `ServiceRef<TService, 'root'>` and every entry of its
dependency map a `ServiceRef<unknown, 'root'>`. -/
def rootOverloadAccepts {DF V : Type} (c : FactoryConfig DF V) : Prop :=
  c.service.scope = Scope.root ∧
    ∀ p ∈ c.deps, (Prod.snd p).scope = Scope.root

/-- The constraint of the two plugin-scoped overloads of
`createServiceFactory` (source lines 224–249): the configuration's
`service` must be a `ServiceRef<TService, 'plugin'>`; its dependency map
may mention tokens of either scope. -/
def pluginOverloadAccepts {DF V : Type} (c : FactoryConfig DF V) : Prop :=
  c.service.scope = Scope.plugin

instance {DF V : Type} (c : FactoryConfig DF V) :
    Decidable (rootOverloadAccepts c) := by
  unfold rootOverloadAccepts
  infer_instance

instance {DF V : Type} (c : FactoryConfig DF V) :
    Decidable (pluginOverloadAccepts c) := by
  unfold pluginOverloadAccepts
  infer_instance

/-- Concrete options for a root-scoped token:
`createServiceRef({ id: 'db', scope: 'root' })` (the §8 scenario). -/
def dbRefOptions : ServiceRefOptions Unit :=
  { id := "db", scope := some Scope.root, defaultFactory := none }

/-- The concrete root-scoped token `A` of the §8 scenario. -/
def dbRef : ServiceRef Unit := createServiceRef dbRefOptions

/-- Concrete options for a plugin-scoped token:
`createServiceRef({ id: 'logger', scope: 'plugin' })`. -/
def loggerRefOptions : ServiceRefOptions Unit :=
  { id := "logger", scope := some Scope.plugin, defaultFactory := none }

/-- The concrete plugin-scoped token `B`. -/
def loggerRef : ServiceRef Unit := createServiceRef loggerRefOptions

/-- Concrete root-scoped configuration of the §8 scenario:
`{ service: A, deps: {}, factory: () => new Pool() }` with no
`initialization` and no `createRootContext` key. -/
def poolConfig : FactoryConfig Unit String :=
  { initialization := none
    service := dbRef
    deps := []
    createRootContext := none
    factory := fun _deps _ctx => "pool" }

/-- The §8 root declaration passed to `createServiceFactory` as a fixed
configuration object.  Caller options are `Unit` (the builder is invoked
with no options). -/
def poolDecl : ServiceFactoryDecl Unit Unit String :=
  ServiceFactoryDecl.fixed poolConfig

/-- Concrete plugin-scoped configuration declaring a `createRootContext`:
`{ service: B, deps: { db: A }, createRootContext: () => sharedStream,
factory: (deps, ctx) => new Logger(ctx) }`. -/
def loggerConfig : FactoryConfig Unit String :=
  { initialization := none
    service := loggerRef
    deps := [("db", dbRef)]
    createRootContext := some (fun _deps => "sharedStream")
    factory := fun _deps ctx => "logger:" ++ ctx.getD "undefined" }

/-- The plugin declaration passed as a fixed configuration object. -/
def loggerDecl : ServiceFactoryDecl Unit Unit String :=
  ServiceFactoryDecl.fixed loggerConfig

/-- A plugin-scoped configuration with the `createRootContext` key absent. -/
def plainPluginConfig : FactoryConfig Unit String :=
  { initialization := none
    service := loggerRef
    deps := []
    createRootContext := none
    factory := fun _deps ctx => "plain:" ++ ctx.getD "undefined" }

/-- An (ill-typed in TypeScript) root-scoped configuration whose dependency
map contains the plugin-scoped token `B`. -/
def badRootConfig : FactoryConfig Unit String :=
  { initialization := none
    service := dbRef
    deps := [("logger", loggerRef)]
    createRootContext := none
    factory := fun _deps _ctx => "pool" }

/-- Claim C1: for every declaration of any of the four shapes (root or
plugin scope, fixed object or parameterized function), invoking the builder
returned by `createServiceFactory` produces a descriptor whose `service`,
`deps`, and `initialization` fields are exactly the corresponding fields of
the resolved configuration object, unchanged by normalization. -/
theorem createServiceFactory_preserves_config_fields
    {Opts DF V : Type} (d : ServiceFactoryDecl Opts DF V) (o : Opts) :
    ((createServiceFactory d).factory o).service = (configCallback d o).service ∧
    ((createServiceFactory d).factory o).deps = (configCallback d o).deps ∧
    ((createServiceFactory d).factory o).initialization
      = (configCallback d o).initialization := by
  unfold createServiceFactory mkDescriptor
  by_cases h : (configCallback d o).service.scope = Scope.root <;> simp [h]

/-- Claim C2: for every plugin-scoped declaration, the descriptor's
`createRootContext` is exactly the declaration's: present if and only if
the declaration provided one, and never a synthesized no-op when the
declaration omitted it. -/
theorem pluginDescriptor_createRootContext_iff_declared
    {Opts DF V : Type} (d : ServiceFactoryDecl Opts DF V) (o : Opts)
    (h : (configCallback d o).service.scope = Scope.plugin) :
    ((createServiceFactory d).factory o).createRootContext
      = (configCallback d o).createRootContext ∧
    (((createServiceFactory d).factory o).createRootContext.isSome
      ↔ (configCallback d o).createRootContext.isSome) := by
  unfold createServiceFactory mkDescriptor
  simp [h]

theorem pluginDescriptor_createRootContext_iff_declared_witness :
    (configCallback loggerDecl ()).service.scope = Scope.plugin ∧
    (((createServiceFactory loggerDecl).factory ()).createRootContext
        = (configCallback loggerDecl ()).createRootContext ∧
      (((createServiceFactory loggerDecl).factory ()).createRootContext.isSome
        ↔ (configCallback loggerDecl ()).createRootContext.isSome)) :=
  ⟨rfl, pluginDescriptor_createRootContext_iff_declared loggerDecl () rfl⟩

/-- Claim C3: for every declaration whose service token has scope `root`,
the produced descriptor has no root-context constructor, and its normalized
instance constructor invokes the declared factory with only the resolved
dependency map — whatever context the engine passes is dropped and the
declared factory's own context slot is the missing argument (`none`). -/
theorem rootDescriptor_no_rootContext_and_deps_only
    {Opts DF V : Type} (d : ServiceFactoryDecl Opts DF V) (o : Opts)
    (h : (configCallback d o).service.scope = Scope.root) :
    ((createServiceFactory d).factory o).createRootContext = none ∧
    ∀ (deps : V) (ctx : Option V),
      ((createServiceFactory d).factory o).factory deps ctx
        = (configCallback d o).factory deps none := by
  unfold createServiceFactory mkDescriptor
  simp [h]

theorem rootDescriptor_no_rootContext_and_deps_only_witness :
    (configCallback poolDecl ()).service.scope = Scope.root ∧
    ((createServiceFactory poolDecl).factory ()).createRootContext = none ∧
    ((createServiceFactory poolDecl).factory ()).factory "d" (some "ctx")
      = (configCallback poolDecl ()).factory "d" none :=
  ⟨rfl,
    (rootDescriptor_no_rootContext_and_deps_only poolDecl () rfl).1,
    (rootDescriptor_no_rootContext_and_deps_only poolDecl () rfl).2 "d" (some "ctx")⟩

/-- Claim C4: a root-scoped declaration whose dependency map contains a
plugin-scoped token is rejected statically — it satisfies the constraint of
none of the four overload signatures of `createServiceFactory` (the two
root overloads require every dependency token to have scope `root`; the two
plugin overloads require the service token itself to have scope `plugin`),
so TypeScript refuses the call and the declaration never reaches the
normalization path that would accept it into a descriptor. -/
theorem root_with_plugin_dep_rejected_statically
    {DF V : Type} (c : FactoryConfig DF V)
    (hroot : c.service.scope = Scope.root)
    (hdep : ∃ p ∈ c.deps, (Prod.snd p).scope = Scope.plugin) :
    ¬ rootOverloadAccepts c ∧ ¬ pluginOverloadAccepts c := by
  constructor
  · intro hacc
    obtain ⟨p, hp, hps⟩ := hdep
    have h2 := hacc.2 p hp
    rw [h2] at hps
    exact Scope.noConfusion hps
  · intro hacc
    unfold pluginOverloadAccepts at hacc
    rw [hroot] at hacc
    exact Scope.noConfusion hacc

theorem root_with_plugin_dep_rejected_statically_witness :
    badRootConfig.service.scope = Scope.root ∧
    (∃ p ∈ badRootConfig.deps, (Prod.snd p).scope = Scope.plugin) ∧
    (¬ rootOverloadAccepts badRootConfig ∧
      ¬ pluginOverloadAccepts badRootConfig) := by
  refine ⟨rfl, ⟨("logger", loggerRef), ?_, rfl⟩, ?_⟩
  · simp [badRootConfig]
  · exact root_with_plugin_dep_rejected_statically badRootConfig rfl
      ⟨("logger", loggerRef), by simp [badRootConfig], rfl⟩

/-- Claim C5 (§8 scenario): for the root-scoped token `A = { id: 'db',
scope: 'root' }` and the fixed declaration `{ service: A, deps: {},
factory: () => new Pool() }` with no `initialization` given, invoking the
builder with no options yields a descriptor whose scope is `root`, whose
`initialization` flag is left absent and is therefore read as `always` by
the resolution engine (`effectiveInitialization`, modelled from the spec),
and which has no root-context constructor. -/
theorem root_scenario_db_descriptor :
    ((createServiceFactory poolDecl).factory ()).service.scope = Scope.root ∧
    ((createServiceFactory poolDecl).factory ()).initialization = none ∧
    effectiveInitialization ((createServiceFactory poolDecl).factory ())
      = InitStrategy.always ∧
    ((createServiceFactory poolDecl).factory ()).createRootContext = none :=
  ⟨rfl, rfl, rfl, rfl⟩

/-- Claim C6: calling `createServiceFactory` with a parameterized
declaration does not evaluate the declaration function (the evaluation
counter is unchanged by builder construction); the function is evaluated —
exactly once — each time the returned builder is invoked; and a fixed
declaration is funneled through the same code path by wrapping it in a
zero-argument closure (`configCallback` of a fixed configuration is the
constant closure, its builder invocation runs no user code, and the
resulting descriptor coincides with that of the wrapped-function form). -/
theorem parameterized_decl_deferred_eval
    {Opts DF V : Type} (f : Opts → FactoryConfig DF V)
    (c : FactoryConfig DF V) (o : Opts) (n m : Nat) :
    (createServiceFactoryCounted (ServiceFactoryDecl.fn f) n).2 = n ∧
    (createServiceFactoryCounted (ServiceFactoryDecl.fn f) n).1.run o m
      = (mkDescriptor (f o), m + 1) ∧
    (createServiceFactoryCounted
      (ServiceFactoryDecl.fixed c : ServiceFactoryDecl Opts DF V) n).2 = n ∧
    (createServiceFactoryCounted
      (ServiceFactoryDecl.fixed c : ServiceFactoryDecl Opts DF V) n).1.run o m
      = (mkDescriptor c, m) ∧
    configCallback (ServiceFactoryDecl.fixed c : ServiceFactoryDecl Opts DF V)
      = (fun _ => c) ∧
    (createServiceFactory (ServiceFactoryDecl.fixed c)).factory o
      = (createServiceFactory (ServiceFactoryDecl.fn (fun _ => c))).factory o :=
  ⟨rfl, rfl, rfl, rfl, rfl, rfl⟩

/-- Claim C7: for every options object with a non-empty `id`,
`createServiceRef` returns a token whose `id` equals the given id and whose
`scope` equals the given scope; when the `scope` option is omitted the
token's scope is `plugin`. -/
theorem createServiceRef_id_scope
    {DF : Type} (options : ServiceRefOptions DF) (_hid : options.id ≠ "") :
    (createServiceRef options).id = options.id ∧
    (∀ s, options.scope = some s → (createServiceRef options).scope = s) ∧
    (options.scope = none → (createServiceRef options).scope = Scope.plugin) := by
  refine ⟨rfl, ?_, ?_⟩
  · intro s hs
    simp [createServiceRef, hs]
  · intro hs
    simp [createServiceRef, hs]

/-- Concrete token options with the `scope` key omitted. -/
def configRefOptions : ServiceRefOptions Unit :=
  { id := "config", scope := none, defaultFactory := none }

theorem createServiceRef_id_scope_witness :
    configRefOptions.id ≠ "" ∧
    ((createServiceRef configRefOptions).id = configRefOptions.id ∧
      (∀ s, configRefOptions.scope = some s →
        (createServiceRef configRefOptions).scope = s) ∧
      (configRefOptions.scope = none →
        (createServiceRef configRefOptions).scope = Scope.plugin)) :=
  ⟨by decide, createServiceRef_id_scope configRefOptions (by decide)⟩

/-- Claim C8: for every token produced by `createServiceRef`, reading the
phantom contract-type field `T` at runtime throws — the getter always
raises `tried to read ServiceRef.T of serviceRef{<id>}` and never yields a
value. -/
theorem serviceRef_readT_always_fails
    {DF : Type} (options : ServiceRefOptions DF) :
    ∃ msg : String, (createServiceRef options).readT = Except.error msg :=
  ⟨"tried to read ServiceRef.T of serviceRef\x7b" ++ options.id ++ "\x7d", rfl⟩

/-- Claim C9, counterexample: the token created with id `db` does not
render as `token{db}` — its `toString` yields `serviceRef{db}`. -/
theorem serviceRef_toString_not_token_form :
    ¬ (dbRef.toStr = "token\x7bdb\x7d") := by decide

/-- Claim C9, amended: for every token produced by `createServiceRef` with
id `i`, the human-readable string form is `serviceRef{i}` (not `token{i}`
as the spec states). -/
theorem serviceRef_renders_serviceRef_form
    {DF : Type} (options : ServiceRefOptions DF) :
    (createServiceRef options).toStr
      = "serviceRef\x7b" ++ options.id ++ "\x7d" := rfl

/-- Claim C10: for every declaration, the builder returned by
`createServiceFactory` carries the tag `@backstage/BackendFeatureFactory`,
and every descriptor it produces (for either scope) carries the tag
`@backstage/BackendFeature` and version `v1`. -/
theorem builder_and_descriptor_tags
    {Opts DF V : Type} (d : ServiceFactoryDecl Opts DF V) (o : Opts) :
    (createServiceFactory d).ssType = "@backstage/BackendFeatureFactory" ∧
    ((createServiceFactory d).factory o).ssType = "@backstage/BackendFeature" ∧
    ((createServiceFactory d).factory o).version = "v1" := by
  refine ⟨rfl, ?_, ?_⟩ <;>
    · unfold createServiceFactory mkDescriptor
      by_cases h : (configCallback d o).service.scope = Scope.root <;> simp [h]
